import Mathlib

set_option autoImplicit false

/-! Shallow embedding of the Bloombox JS client SDK core: the telemetry Context
model (construction, plain-object serialization, wire export), the global
fingerprint resolver, the event-serialization dispatcher, and the three
request senders (enroll, zipcheck, shop-info), together with theorems
settling the specification claims about them.

Source files embedded:
* `src/unnamed/part_000` — `bloombox.telemetry.Collection` / `Context` /
  `resolveFingerprint` and friends;
* `src/src/shop/info/zipcheck.js` — `bloombox.shop.zipcheck`;
* `src/src/shop/info/shopinfo.js` — `bloombox.shop.info` and
  `bloombox.telemetry.internals.serializeGeneric`;
* `src/src/identity/id.js` — `bloombox.shop.enroll.Enrollment.prototype.send`.
-/

namespace bloombox

/-- JS primitive values as they appear in decoded RPC response fields.
`pundefined` models the result of reading a property that is not present. -/
inductive JSPrim where
  | pundefined
  | pnull
  | pbool (b : Bool)
  | pstr (s : String)
  | pnum (n : Int)
deriving DecidableEq, Repr

/-- Decoded JSON-ish values delivered by the RPC transport to a sender's
success continuation. Objects are flat key/primitive maps, which covers every
property read the senders perform (`supported`, `shopStatus`, `error`, `id`,
`foreignId`). -/
inductive JSVal where
  | vnull
  | vbool (b : Bool)
  | vstr (s : String)
  | vnum (n : Int)
  | vobj (fields : List (String × JSPrim))
deriving DecidableEq, Repr

/-- JS truthiness of a primitive: `undefined`, `null`, `false`, `''` and `0`
are falsy, everything else is truthy. -/
def jsPrimTruthy : JSPrim → Bool
  | .pundefined => false
  | .pnull => false
  | .pbool b => b
  | .pstr s => !s.isEmpty
  | .pnum n => !(n == 0)

/-- Property read `v[k]`: object lookup, `undefined` when the key is missing
or the receiver is a non-object primitive. Every caller guards against a
`null` receiver first (`response != null`), so the `vnull` arm is never
reached by embedded code. -/
def getProp : JSVal → String → JSPrim
  | .vobj fields, k => (fields.lookup k).getD .pundefined
  | _, _ => .pundefined

/-- JS truthiness of an optional string argument (`opt_x` parameters):
`null`/`undefined` and the empty string are falsy. -/
def strTruthy : Option String → Bool
  | none => false
  | some s => !s.isEmpty

/-- Models the `opt_x || null` normalization the `Context` constructor applies
to its string arguments: a falsy argument becomes `null`. -/
def normStr (o : Option String) : Option String :=
  if strTruthy o then o else none

end bloombox

namespace bloombox.telemetry

/-- Embeds `bloombox.telemetry.Collection`: a named event collection. The
construction-time base64 encoding (`bloombox.util.b64`, an external
collaborator not under `src/`) is outside the model; the record holds the
final `name`. -/
structure Collection where
  name : String
deriving DecidableEq, Repr

/-- Embeds `proto.partner.PartnerKey` — only the `code` field is used. -/
structure PartnerKey where
  code : String
deriving DecidableEq, Repr

/-- Embeds `proto.partner.PartnerLocationKey` — `code` plus the partner key attached
via `setPartner`. The proto field is nullable, hence `Option`. -/
structure PartnerLocationKey where
  code : String
  partner : Option PartnerKey
deriving DecidableEq, Repr

/-- Embeds `proto.partner.PartnerDeviceKey` — `uuid` plus the (nullable) location key
attached via `setLocation`. -/
structure PartnerDeviceKey where
  uuid : String
  location : Option PartnerLocationKey
deriving DecidableEq, Repr

/-- Embeds `proto.identity.UserKey` — only `uid` is used. -/
structure UserKey where
  uid : String
deriving DecidableEq, Repr

/-- Embeds `proto.commerce.OrderKey` — only `id` is used. -/
structure OrderKey where
  id : String
deriving DecidableEq, Repr

/-- Embeds `proto.structs.VersionSpec` — a `name` string, `""` when unset (the proto
getter default). -/
structure VersionSpec where
  name : String
deriving DecidableEq, Repr

/-- Embeds `proto.analytics.context.DeviceOS` — OS type enum value and version. -/
structure DeviceOS where
  osType : Nat
  version : VersionSpec
deriving DecidableEq, Repr

/-- Embeds `proto.analytics.context.DeviceApplication` — app type enum value and
origin string. -/
structure DeviceApplication where
  appType : Nat
  origin : String
deriving DecidableEq, Repr

/-- Embeds `proto.analytics.context.DeviceLibrary` — library variant and version. -/
structure DeviceLibrary where
  variant : String
  version : VersionSpec
deriving DecidableEq, Repr

/-- Embeds `proto.analytics.context.BrowserDeviceContext`. `buildBrowserContext` (the
only producer in the repository) always sets every sub-message, so they are
modelled as present. -/
structure BrowserDeviceContext where
  browserType : Nat
  deviceType : Nat
  version : VersionSpec
  os : DeviceOS
  app : DeviceApplication
  library : DeviceLibrary
deriving DecidableEq, Repr

/-- Embeds `bloombox.telemetry.ContextException`. -/
structure ContextException where
  message : String
deriving DecidableEq, Repr

/-- The record the `bloombox.telemetry.Context` constructor assembles. Note
that the constructor stores the partner key only inside the location key; it
never assigns a `this.partner` property. -/
structure Context where
  collection : Option Collection
  fingerprint : Option String
  session : Option String
  location : Option PartnerLocationKey
  device : Option PartnerDeviceKey
  user : Option UserKey
  order : Option OrderKey
  browser : Option BrowserDeviceContext
deriving DecidableEq, Repr

/-- The nine optional arguments of the `Context` constructor, in source
order. -/
structure ContextArgs where
  collection : Option Collection
  partner : Option String
  location : Option String
  fingerprint : Option String
  session : Option String
  user : Option String
  device : Option String
  order : Option String
  browser : Option BrowserDeviceContext
deriving DecidableEq, Repr

/-- The `bloombox.telemetry.Context` constructor (part_000 lines 170-298).
The location step mirrors the source exactly: the first branch and the
`else if` branch test the same condition `opt_partner && opt_location`, so
the `throw` in the second branch is unreachable. -/
def Context.make (a : ContextArgs) : Except ContextException Context := do
  let collection := a.collection
  let fingerprint := normStr a.fingerprint
  let session := normStr a.session
  let partnerKey : Option PartnerKey :=
    if strTruthy a.partner then some { code := a.partner.getD "" } else none
  let locationKey : Option PartnerLocationKey ←
    if strTruthy a.partner && strTruthy a.location then
      pure (some { code := a.location.getD "", partner := partnerKey })
    else if strTruthy a.partner && strTruthy a.location then
      -- source comment: "failure: must specify a partner to specify a location"
      throw { message := "Cannot provide location context without partner context." }
    else
      pure none
  let deviceKey : Option PartnerDeviceKey :=
    if strTruthy a.device then
      some { uuid := a.device.getD "", location := locationKey }
    else none
  let user : Option UserKey :=
    if strTruthy a.user then some { uid := a.user.getD "" } else none
  let order : Option OrderKey :=
    if strTruthy a.order then some { id := a.order.getD "" } else none
  pure { collection := collection
         fingerprint := fingerprint
         session := session
         location := locationKey
         device := deviceKey
         user := user
         order := order
         browser := a.browser }

/-- The record `Context.make` actually produces (the throw branch being
unreachable, construction always succeeds); see `Context.make_eq`. -/
def Context.build (a : ContextArgs) : Context :=
  let partnerKey : Option PartnerKey :=
    if strTruthy a.partner then some { code := a.partner.getD "" } else none
  let locationKey : Option PartnerLocationKey :=
    if strTruthy a.partner && strTruthy a.location then
      some { code := a.location.getD "", partner := partnerKey }
    else none
  { collection := a.collection
    fingerprint := normStr a.fingerprint
    session := normStr a.session
    location := locationKey
    device :=
      if strTruthy a.device then
        some { uuid := a.device.getD "", location := locationKey }
      else none
    user := if strTruthy a.user then some { uid := a.user.getD "" } else none
    order := if strTruthy a.order then some { id := a.order.getD "" } else none
    browser := a.browser }

end bloombox.telemetry

namespace bloombox.telemetry

/-- Output object of `Collection.prototype.serialize`: `{'name': ...}`. -/
structure SerCollection where
  name : String
deriving DecidableEq, Repr

/-- Output object of `Context.resolveVersion`: `{'name': ...}` when the spec
has a truthy name, `{}` otherwise (modelled as an optional key). -/
structure SerVersion where
  name : Option String
deriving DecidableEq, Repr

/-- The `'os'` sub-object of a serialized browser context. -/
structure SerOS where
  type : Nat
  version : SerVersion
deriving DecidableEq, Repr

/-- The `'app'` sub-object of a serialized browser context. -/
structure SerApp where
  type : Nat
  origin : String
deriving DecidableEq, Repr

/-- The `'library'` sub-object of a serialized browser context. -/
structure SerLibrary where
  variant : String
  version : SerVersion
deriving DecidableEq, Repr

/-- Output object of `Context.serializeBrowserContext`. -/
structure SerBrowser where
  browserType : Nat
  deviceType : Nat
  version : SerVersion
  os : SerOS
  app : SerApp
  library : SerLibrary
deriving DecidableEq, Repr

/-- The `'user'` sub-object `{'uid': ...}` of a serialized context. -/
structure SerUser where
  uid : String
deriving DecidableEq, Repr

/-- The `'order'` sub-object `{'id': ...}` of a serialized context. -/
structure SerOrder where
  id : String
deriving DecidableEq, Repr

/-- The `'scope'` sub-object of a serialized context; `partner` is set by the
partner-scope path, `order` only by the commercial fallback. -/
structure SerScope where
  partner : Option String
  order : Option String
deriving DecidableEq, Repr

/-- Output object of `Context.prototype.serialize`; every key is optional
because the source only assigns keys it finds present. -/
structure SerContext where
  collection : Option SerCollection
  fingerprint : Option String
  group : Option String
  user : Option SerUser
  order : Option SerOrder
  scope : Option SerScope
  browser : Option SerBrowser
deriving DecidableEq, Repr

/-- Embeds `Context.resolveVersion` (part_000 lines 307-313). The source also
null-checks `protob`; in this model a `VersionSpec` is always a record, with
`""` standing for an unset name. -/
def Context.resolveVersion (protob : VersionSpec) : SerVersion :=
  if !protob.name.isEmpty then { name := some protob.name } else { name := none }

/-- Embeds `Context.serializeBrowserContext` (part_000 lines 323-344). -/
def Context.serializeBrowserContext (protob : BrowserDeviceContext) : SerBrowser :=
  { browserType := protob.browserType
    deviceType := protob.deviceType
    version := Context.resolveVersion protob.version
    os := { type := protob.os.osType
            version := Context.resolveVersion protob.os.version }
    app := { type := protob.app.appType, origin := protob.app.origin }
    library := { variant := protob.library.variant
                 version := Context.resolveVersion protob.library.version } }

/-- Models `this.location.getPartner().getCode()`. `getPartner()` can in
principle be unset (`Option`), but the constructor always sets the partner key
whenever it sets a location key, so the `""` default is never observed on a
constructed context. -/
def PartnerLocationKey.partnerCode (lk : PartnerLocationKey) : String :=
  (lk.partner.map PartnerKey.code).getD ""

/-- The error raised by the unguarded `this.device.getUuid()` read in
`Context.prototype.serialize` when `this.device` is `null`. -/
def serializeDeviceNullError : String :=
  "TypeError: cannot read getUuid of null this.device"

/-- Embeds `Context.prototype.serialize` (part_000 lines 406-472). Faithful points:
the two-segment branch (location present, device absent) evaluates
`this.device.getUuid()` on a `null` device and faults; the no-location branch
tests `this.partner`, a property the constructor never assigns, so the read
yields `undefined` and the branch body never runs; the commercial fallback
sets `scope.order` only when no partner scope was emitted. -/
def Context.serialize (ctx : Context) : Except String SerContext := do
  let partnerScope : Option String ←
    match ctx.location with
    | some lk =>
      match ctx.device with
      | some dk =>
        pure (some (String.intercalate "/" [lk.partnerCode, lk.code, dk.uuid]))
      | none =>
        throw serializeDeviceNullError
    | none =>
      -- `if (this.partner)`: `this.partner` is `undefined`, hence falsy
      pure none
  let scopeFromPartner : Option SerScope :=
    if strTruthy partnerScope then some { partner := partnerScope, order := none }
    else none
  let scope : Option SerScope :=
    match ctx.order, scopeFromPartner with
    | some o, none => some { partner := none, order := some o.id }
    | _, _ => scopeFromPartner
  pure { collection := ctx.collection.map (fun c => { name := c.name })
         fingerprint := if strTruthy ctx.fingerprint then ctx.fingerprint else none
         group := if strTruthy ctx.session then ctx.session else none
         user := ctx.user.map (fun u => { uid := u.uid })
         order := ctx.order.map (fun o => { id := o.id })
         scope := scope
         browser := ctx.browser.map Context.serializeBrowserContext }

/-- Embeds `proto.analytics.Scope` — only the `partner` string field is used. -/
structure Scope where
  partner : Option String
deriving DecidableEq, Repr

/-- The exported `proto.analytics.Context` message: fields that `export`
may set. There is no order field, and `setScope` is never invoked. -/
structure AnalyticsContextMsg where
  fingerprint : Option String
  group : Option String
  collection : Option SerCollection
  user : Option UserKey
  scope : Option Scope
  browser : Option BrowserDeviceContext
deriving DecidableEq, Repr

/-- The local `scope` value `Context.prototype.export` computes (part_000
lines 492-508): a labelled concatenation with no separators between the
labelled segments, set only when a location is present. -/
def Context.exportScope (ctx : Context) : Scope :=
  match ctx.location with
  | some lk =>
    match ctx.device with
    | some dk =>
      { partner := some ("partner/" ++ lk.partnerCode ++
          "location/" ++ lk.code ++ "device/" ++ dk.uuid) }
    | none =>
      { partner := some ("partner/" ++ lk.partnerCode ++ "location/" ++ lk.code) }
  | none => { partner := none }

/-- Embeds `Context.prototype.export` (part_000 lines 481-513). The local `scope`
message is computed (see `Context.exportScope`) but the source never calls
`context.setScope(scope)`, so the returned message carries no scope. -/
def Context.export (ctx : Context) : AnalyticsContextMsg :=
  let _scope := ctx.exportScope
  { fingerprint := if strTruthy ctx.fingerprint then ctx.fingerprint else none
    group := if strTruthy ctx.session then ctx.session else none
    collection := ctx.collection.map (fun c => { name := c.name })
    user := ctx.user
    scope := none
    browser := ctx.browser }

end bloombox.telemetry

namespace bloombox.telemetry

/-- The process-global telemetry state touched by `resolveFingerprint`
(part_000 lines 525-595): the in-memory `DEVICE_FINGERPRINT` cache, the
`localStorage` slot under `DEVICE_FINGERPRINT_KEY`, and a freshness supply
for the UUID generator. -/
structure TelemetryGlobals where
  deviceFingerprint : Option String
  localStorageFingerprint : Option String
  uuidSupply : Nat
deriving DecidableEq, Repr

/-- Modelled from the spec: `bloombox.util.generateUUID` is code of this
repository that is not under `src/`; the spec says `resolveFingerprint`
otherwise generates "a new random unique identifier". It is modelled as an
injective supply of non-empty strings, drawn by a per-call counter. -/
def generateUUID (n : Nat) : String :=
  String.mk (List.replicate (n + 1) 'u')

/-- Embeds `bloombox.telemetry.resolveFingerprint` (part_000 lines 574-595): if the
in-memory cache is `null`, try the storage slot (accepted when truthy);
otherwise generate a fresh UUID and persist it to both. Returns the
fingerprint and the updated global state. -/
def resolveFingerprint (s : TelemetryGlobals) : String × TelemetryGlobals :=
  match s.deviceFingerprint with
  | some fp => (fp, s)
  | none =>
    let existingFingerprint := s.localStorageFingerprint
    if strTruthy existingFingerprint then
      (existingFingerprint.getD "", { s with deviceFingerprint := existingFingerprint })
    else
      let newDeviceFingerprint := generateUUID s.uuidSupply
      (newDeviceFingerprint,
        { deviceFingerprint := some newDeviceFingerprint
          localStorageFingerprint := some newDeviceFingerprint
          uuidSupply := s.uuidSupply + 1 })

/-- Clearing the backing storage slot (`localStorage.removeItem` on
`DEVICE_FINGERPRINT_KEY`), leaving the in-memory cache untouched. -/
def clearFingerprintStorage (s : TelemetryGlobals) : TelemetryGlobals :=
  { s with localStorageFingerprint := none }

/-- A fresh process over the same UUID supply: the in-memory cache does not
survive a restart, and here the storage slot has also been cleared. -/
def freshProcessCleared (s : TelemetryGlobals) : TelemetryGlobals :=
  { deviceFingerprint := none
    localStorageFingerprint := none
    uuidSupply := s.uuidSupply }

end bloombox.telemetry

namespace bloombox.shop

/-- Synchronous outcome of a sender invocation, up to the single outbound
call: it threw, it logged and returned without calling anything, or it
reached `rpc.send` with the given method and endpoint. -/
inductive SyncOutcome where
  | threw (message : String)
  | loggedAndReturned
  | issuedRpc (httpMethod : String) (endpoint : String)
deriving DecidableEq, Repr

/-- Models `isNaN(parseInt(s, 10))`: `parseInt` skips leading spaces, accepts
an optional sign, and is `NaN` iff no leading digit follows. -/
def parseIntNaN (s : String) : Bool :=
  match s.data.dropWhile (fun c => c = ' ') with
  | [] => true
  | c :: rest =>
    if c.isDigit then false
    else if c = '+' || c = '-' then
      match rest with
      | [] => true
      | d :: _ => !d.isDigit
    else true

/-- The zipcode validity test of `bloombox.shop.zipcheck` (zipcheck.js lines
59-60): throw when the zipcode is falsy, not of length 5, or does not parse
as an integer. The `typeof` test always passes in this typed model. -/
def zipcodeInvalid (zipcode : String) : Bool :=
  zipcode.isEmpty || !(zipcode.length == 5) || parseIntNaN zipcode

/-- The config test shared by zipcheck (lines 72-74) and shop-info (lines
75-77): fail when the partner code is falsy, or either code is not a string
of length greater than 1. `none` models an unset config entry. -/
def configMissingOrMalformed (p l : Option String) : Bool :=
  !(strTruthy p) ||
  !(match p with | some s => decide (s.length > 1) | none => false) ||
  !(match l with | some s => decide (s.length > 1) | none => false)

/-- The config error message thrown by `bloombox.shop.zipcheck`. -/
def zipcheckConfigMessage : String :=
  "Partner and location must be set via `bloombox.shop.setup` before conducting a zipcode eligibility check."

/-- The config error message thrown by `bloombox.shop.info`. -/
def shopInfoConfigMessage : String :=
  "Partner and location must be set via `bloombox.shop.setup` before retrieving shop info."

/-- Synchronous phase of `bloombox.shop.zipcheck` (zipcheck.js lines 57-86):
validate the zipcode, then the config, then issue one GET. -/
def zipcheckSync (p l : Option String) (zipcode : String) : SyncOutcome :=
  if zipcodeInvalid zipcode then
    .threw ("Zipcode was found to be invalid: " ++ zipcode)
  else if configMissingOrMalformed p l then
    .threw zipcheckConfigMessage
  else
    .issuedRpc "GET"
      (String.intercalate "/"
        ["partners", p.getD "", "locations", l.getD "", "zipcheck", zipcode])

/-- Synchronous phase of `bloombox.shop.info` (shopinfo.js lines 70-91). -/
def shopInfoSync (p l : Option String) : SyncOutcome :=
  if configMissingOrMalformed p l then
    .threw shopInfoConfigMessage
  else
    .issuedRpc "GET"
      (String.intercalate "/"
        ["partners", p.getD "", "locations", l.getD "", "shop", "info"])

/-- Synchronous phase of `Enrollment.prototype.send` (id.js lines 342-425):
on a falsy partner or location code it logs an error and returns without
raising and without touching the callback; otherwise it builds the request
body and issues one POST to `members`. -/
def enrollSendSync (p l : Option String) : SyncOutcome :=
  if !(strTruthy p) || !(strTruthy l) then
    .loggedAndReturned
  else
    .issuedRpc "POST" "members"

/-- One outcome delivered by the RPC transport: the success continuation
fires with a decoded payload (possibly `null`), or the failure continuation
fires with an HTTP-ish status. -/
inductive RpcOutcome where
  | success (response : bloombox.JSVal)
  | failure (status : Option Int)
deriving DecidableEq, Repr

/-- Models `status || null` on the failure path of shop-info. -/
def statusOrNull : Option Int → Option Int
  | some n => if n == 0 then none else some n
  | none => none

/-- Callback invocations performed by zipcheck's two continuations for one
delivered outcome (zipcheck.js lines 87-112), in order; each list element is
one `callback(...)` call with its `?boolean` argument. A `null` success
payload fails the `response != null` test and there is no `else`, so no
callback fires on that path. -/
def zipcheckDeliver : RpcOutcome → List (Option Bool)
  | .success .vnull => []
  | .success (.vobj fields) =>
    [some (bloombox.getProp (.vobj fields) "supported" == .pbool true)]
  | .success _ => [none]
  | .failure _ => [none]

/-- The `switch ((response['shopStatus']) || ShopStatus.OPEN)` mapping of
shop-info (shopinfo.js lines 104-128) to `(pickup, delivery)`. -/
def shopStatusSwitch (v : bloombox.JSPrim) : Option Bool × Option Bool :=
  let subject := if bloombox.jsPrimTruthy v then v else .pstr "OPEN"
  match subject with
  | .pstr "CLOSED" => (some false, some false)
  | .pstr "DELIVERY_ONLY" => (some false, some true)
  | .pstr "PICKUP_ONLY" => (some true, some false)
  | _ => (some true, some true)

/-- Callback invocations performed by shop-info's two continuations for one
delivered outcome (shopinfo.js lines 93-145); arguments are
`(pickup, delivery, status)`. As in zipcheck, a `null` success payload
invokes nothing. -/
def shopInfoDeliver : RpcOutcome → List (Option Bool × Option Bool × Option Int)
  | .success .vnull => []
  | .success (.vobj fields) =>
    [((shopStatusSwitch (bloombox.getProp (.vobj fields) "shopStatus")).1,
      (shopStatusSwitch (bloombox.getProp (.vobj fields) "shopStatus")).2,
      none)]
  | .success _ => [(none, none, none)]
  | .failure status => [(none, none, statusOrNull status)]

/-- Embeds `bloombox.shop.Customer` as enroll's success path constructs it: the
enclosing enrollment's person (opaque here) plus the `foreignId` read from
the response. -/
structure Customer where
  foreignId : bloombox.JSPrim
deriving DecidableEq, Repr

/-- Callback invocations performed by enroll's two continuations for one
delivered outcome (id.js lines 430-468); arguments are
`(ok, error, customer)`. Unlike its siblings, enroll has an `else` for the
`null` payload and invokes the callback on every path. The error value is the
response's `error` field round-tripped through the inflated proto. -/
def enrollDeliver :
    RpcOutcome → List (Bool × Option bloombox.JSPrim × Option Customer)
  | .success .vnull => [(false, none, none)]
  | .success r =>
    if bloombox.jsPrimTruthy (bloombox.getProp r "error") then
      [(false, some (bloombox.getProp r "error"), none)]
    else if bloombox.jsPrimTruthy (bloombox.getProp r "id") &&
        bloombox.jsPrimTruthy (bloombox.getProp r "foreignId") then
      [(true, none, some { foreignId := bloombox.getProp r "foreignId" })]
    else
      [(false, none, none)]
  | .failure _ => [(false, none, none)]

end bloombox.shop

namespace bloombox.telemetry.internals

/-- Embeds `bloombox.telemetry.internals.EventTypeProperty` (shopinfo.js lines
199-209). -/
inductive EventTypeProperty where
  | EVENT
  | EXCEPTION
  | SECTION_IMPRESSION
  | SECTION_VIEW
  | SECTION_ACTION
  | PRODUCT_IMPRESSION
  | PRODUCT_VIEW
  | PRODUCT_ACTION
  | ORDER_ACTION
deriving DecidableEq, Repr

/-- The string value of each `EventTypeProperty` enum member. -/
def EventTypeProperty.value : EventTypeProperty → String
  | .EVENT => "genericEvent"
  | .EXCEPTION => "genericError"
  | .SECTION_IMPRESSION => "sectionImpression"
  | .SECTION_VIEW => "sectionView"
  | .SECTION_ACTION => "sectionAction"
  | .PRODUCT_IMPRESSION => "productImpression"
  | .PRODUCT_VIEW => "productView"
  | .PRODUCT_ACTION => "productAction"
  | .ORDER_ACTION => "orderAction"

/-- Embeds `bloombox.telemetry.internals.SerializationException` (shopinfo.js lines
223-244): message, offending event type, offending payload. -/
structure SerializationException where
  message : String
  type : EventTypeProperty
  value : bloombox.JSVal
deriving DecidableEq, Repr

/-- The `proto.services.telemetry.v1beta2.TelemetryEvent` envelope as
`serializeGeneric` populates it: at most one of the two typed payload fields,
plus an optional context. -/
structure TelemetryEvent where
  generic : Option bloombox.JSVal
  error : Option bloombox.JSVal
  context : Option bloombox.telemetry.AnalyticsContextMsg
deriving DecidableEq, Repr

/-- Embeds `bloombox.telemetry.internals.serializeGeneric` (shopinfo.js lines
262-293). `optErr = none` models an omitted `opt_err` (`doThrow` defaults to
`true`). The unrecognized-type arm returns before the context is applied;
the two recognized arms fall through to `if (opt_context !== undefined)
event.setContext(opt_context)`, folded here into the built record. A returned
`none` models the `return null` of the non-throwing mode. -/
def serializeGeneric (type : EventTypeProperty) (value : bloombox.JSVal)
    (optContext : Option bloombox.telemetry.AnalyticsContextMsg)
    (optErr : Option Bool) :
    Except SerializationException (Option TelemetryEvent) :=
  let doThrow := match optErr with | none => true | some b => b
  match type with
  | .EVENT =>
    .ok (some { generic := some value, error := none, context := optContext })
  | .EXCEPTION =>
    .ok (some { generic := none, error := some value, context := optContext })
  | _ =>
    if doThrow then
      .error { message := "Unable to serialize generic TelemetryEvent."
               type := type
               value := value }
    else
      .ok none

end bloombox.telemetry.internals

open bloombox bloombox.telemetry bloombox.shop bloombox.telemetry.internals

/-- Concrete constructor arguments: partner, location and device present. -/
def scopeArgs (p l d : String) : ContextArgs :=
  { collection := none, partner := some p, location := some l
    fingerprint := none, session := none, user := none
    device := some d, order := none, browser := none }

/-- Concrete constructor arguments: partner and location present, no device. -/
def partnerLocationArgs : ContextArgs :=
  { collection := none, partner := some "p1", location := some "l1"
    fingerprint := none, session := none, user := none
    device := none, order := none, browser := none }

/-- Concrete constructor arguments: nothing supplied. -/
def emptyArgs : ContextArgs :=
  { collection := none, partner := none, location := none
    fingerprint := none, session := none, user := none
    device := none, order := none, browser := none }

/-- The all-absent serialized output, used to witness claim C4. -/
def emptySer : SerContext :=
  { collection := none, fingerprint := none, group := none, user := none
    order := none, scope := none, browser := none }

namespace bloombox.telemetry

theorem Context.make_eq (a : ContextArgs) :
    Context.make a = .ok (Context.build a) := by
  unfold Context.make Context.build
  by_cases h : (strTruthy a.partner && strTruthy a.location) = true <;>
    simp [h, Bind.bind, Except.bind, Pure.pure, Except.pure]

theorem generateUUID_injective {m n : Nat} (h : generateUUID m = generateUUID n) :
    m = n := by
  unfold generateUUID at h
  have hlen := congrArg String.length h
  simpa [String.length] using hlen

theorem generateUUID_not_empty (n : Nat) : (generateUUID n).isEmpty = false := by
  have h : generateUUID n ≠ "" := by
    unfold generateUUID
    intro he
    have := congrArg String.data he
    simp at this
  cases he : (generateUUID n).isEmpty
  · rfl
  · exact absurd ((String.isEmpty_iff _).mp he) h

end bloombox.telemetry

theorem intercalate_slash_three (x y z : String) :
    String.intercalate "/" [x, y, z] = x ++ "/" ++ y ++ "/" ++ z := rfl

theorem slashJoin_not_empty (x y z : String) :
    (x ++ "/" ++ y ++ "/" ++ z).isEmpty = false := by
  cases he : (x ++ "/" ++ y ++ "/" ++ z).isEmpty
  · rfl
  · have h := (String.isEmpty_iff _).mp he
    have h2 := congrArg String.data h
    simp [String.data_append] at h2

/-- Claim C1: the spec says a Context construction with `location` supplied
but `partner` absent must raise `ContextError`. Evaluating the constructor at
exactly that input shows it instead returns successfully, with the location
silently dropped: the `else if` guarding the throw repeats the condition
`opt_partner && opt_location` of the branch above it, so the throw is
unreachable (the source's own dead-branch comment and `@throws` annotation
document the intended error). -/
theorem claim_C1_location_without_partner_constructs_ok :
    Context.make
      { collection := none, partner := none, location := some "sf"
        fingerprint := none, session := none, user := none
        device := none, order := none, browser := none } =
    Except.ok
      { collection := none, fingerprint := none, session := none
        location := none, device := none, user := none, order := none
        browser := none } := rfl

/-- Claim C2 counterexample: for the concrete Context built from partner
"p1", location "l1", device "d1", the plain-object serialization emits
`scope.partner = "p1/l1/d1"` while the wire export emits no scope at all
(its locally computed scope string, which is moreover the differently shaped
`"partner/p1location/l1device/d1"`, is never attached to the message), so
the two renderings do not agree on the scope as the claim states. -/
theorem claim_C2_export_serialize_scope_disagree_cex :
    Context.make (scopeArgs "p1" "l1" "d1") =
      Except.ok (Context.build (scopeArgs "p1" "l1" "d1")) ∧
    (Context.build (scopeArgs "p1" "l1" "d1")).serialize =
      Except.ok
        { collection := none, fingerprint := none, group := none
          user := none, order := none
          scope := some { partner := some "p1/l1/d1", order := none }
          browser := none } ∧
    ((Context.build (scopeArgs "p1" "l1" "d1")).export).scope = none ∧
    Context.exportScope (Context.build (scopeArgs "p1" "l1" "d1")) =
      { partner := some "partner/p1location/l1device/d1" } := by
  refine ⟨rfl, ?_, rfl, rfl⟩
  rfl

/-- Claim C2 amended: both renderings are functions of the record alone, but
they do not agree on the scope. For a Context with partner, location and
device all present, `serialize` emits `scope.partner` as the identifiers
joined with `/` (three segments), while `export` computes a labelled
concatenation `partner/<p>location/<l>device/<d>` (no separators between the
labelled segments) and then never attaches it: the exported message carries
no scope because `setScope` is never called. -/
theorem claim_C2_amended_scope_shapes (p l d : String)
    (hp : p.isEmpty = false) (hl : l.isEmpty = false) (hd : d.isEmpty = false) :
    Context.make (scopeArgs p l d) = Except.ok (Context.build (scopeArgs p l d)) ∧
    (Context.build (scopeArgs p l d)).serialize =
      Except.ok
        { collection := none, fingerprint := none, group := none
          user := none, order := none
          scope := some { partner := some (p ++ "/" ++ l ++ "/" ++ d), order := none }
          browser := none } ∧
    Context.exportScope (Context.build (scopeArgs p l d)) =
      { partner := some ("partner/" ++ p ++ "location/" ++ l ++ "device/" ++ d) } ∧
    (Context.build (scopeArgs p l d)).export =
      { fingerprint := none, group := none, collection := none
        user := none, scope := none, browser := none } := by
  refine ⟨Context.make_eq _, ?_, ?_, ?_⟩
  · unfold scopeArgs Context.build Context.serialize
    simp [strTruthy, normStr, hp, hl, hd, PartnerLocationKey.partnerCode,
      intercalate_slash_three, slashJoin_not_empty,
      Bind.bind, Except.bind, Pure.pure, Except.pure]
  · unfold scopeArgs Context.build Context.exportScope
    simp [strTruthy, normStr, hp, hl, hd, PartnerLocationKey.partnerCode]
  · unfold scopeArgs Context.build Context.export
    simp [strTruthy, normStr, hp, hl, hd]

/-- Claim C2 amended, witnessed at partner "pw", location "lw", device
"dw". -/
theorem claim_C2_amended_scope_shapes_witness :
    Context.make (scopeArgs "pw" "lw" "dw") =
      Except.ok (Context.build (scopeArgs "pw" "lw" "dw")) ∧
    (Context.build (scopeArgs "pw" "lw" "dw")).serialize =
      Except.ok
        { collection := none, fingerprint := none, group := none
          user := none, order := none
          scope := some { partner := some ("pw" ++ "/" ++ "lw" ++ "/" ++ "dw"), order := none }
          browser := none } ∧
    Context.exportScope (Context.build (scopeArgs "pw" "lw" "dw")) =
      { partner := some ("partner/" ++ "pw" ++ "location/" ++ "lw" ++ "device/" ++ "dw") } ∧
    (Context.build (scopeArgs "pw" "lw" "dw")).export =
      { fingerprint := none, group := none, collection := none
        user := none, scope := none, browser := none } :=
  claim_C2_amended_scope_shapes "pw" "lw" "dw" rfl rfl rfl

/-- Claim C5: every Context constructed with partner and location present but
no device makes `serialize` fault rather than return an object: the
two-segment branch reads `this.device.getUuid()` while `this.device` is
null, so `serialize` is not total over constructible Contexts. -/
theorem claim_C5_serialize_faults_without_device (a : ContextArgs)
    (hp : strTruthy a.partner = true) (hl : strTruthy a.location = true)
    (hd : strTruthy a.device = false) :
    Context.make a = Except.ok (Context.build a) ∧
    (Context.build a).serialize = Except.error serializeDeviceNullError := by
  refine ⟨Context.make_eq a, ?_⟩
  unfold Context.build Context.serialize
  simp [hp, hl, hd, Bind.bind, Except.bind]

/-- Claim C5, witnessed at partner "p1", location "l1", no device. -/
theorem claim_C5_serialize_faults_without_device_witness :
    Context.make partnerLocationArgs =
      Except.ok (Context.build partnerLocationArgs) ∧
    (Context.build partnerLocationArgs).serialize =
      Except.error serializeDeviceNullError :=
  claim_C5_serialize_faults_without_device partnerLocationArgs rfl rfl rfl

/-- Claim C3 counterexample: a success delivery of a `null` payload to
zipcheck or shop-info invokes the typed callback zero times — the success
continuation's `response != null` test has no `else` branch — refuting the
claim that no path leaves the callback unresolved. -/
theorem claim_C3_null_success_payload_drops_callback_cex :
    zipcheckDeliver (.success .vnull) = [] ∧
    shopInfoDeliver (.success .vnull) = [] := ⟨rfl, rfl⟩

/-- Claim C3 amended: for each single outcome delivered by the transport, the
typed callback fires at most once (never twice), and exactly once for every
outcome except a success delivery of a `null` payload to zipcheck or
shop-info, where it fires zero times; enroll fires it exactly once for every
outcome. -/
theorem claim_C3_amended_callback_at_most_once (o : RpcOutcome) :
    (zipcheckDeliver o).length ≤ 1 ∧
    (shopInfoDeliver o).length ≤ 1 ∧
    (enrollDeliver o).length = 1 ∧
    (o ≠ .success .vnull →
      (zipcheckDeliver o).length = 1 ∧ (shopInfoDeliver o).length = 1) := by
  by_cases ho : o = RpcOutcome.success .vnull
  · subst ho
    exact ⟨by decide, by decide, by decide, fun hne => absurd rfl hne⟩
  · have hz : (zipcheckDeliver o).length = 1 := by
      rcases o with r | status
      · rcases r with _ | b | s | n | fields
        · exact absurd rfl ho
        all_goals rfl
      · rfl
    have hsi : (shopInfoDeliver o).length = 1 := by
      rcases o with r | status
      · rcases r with _ | b | s | n | fields
        · exact absurd rfl ho
        all_goals rfl
      · rfl
    have he : (enrollDeliver o).length = 1 := by
      rcases o with r | status
      · rcases r with _ | b | s | n | fields
        · rfl
        all_goals
          simp only [enrollDeliver]
          (repeat' split) <;> rfl
      · rfl
    exact ⟨by simp [hz], by simp [hsi], he, fun _ => ⟨hz, hsi⟩⟩

/-- Claim C3 amended, witnessed at a transport-failure outcome. -/
theorem claim_C3_amended_callback_at_most_once_witness :
    (zipcheckDeliver (.failure none)).length = 1 ∧
    (shopInfoDeliver (.failure none)).length = 1 ∧
    (enrollDeliver (.failure none)).length = 1 := by
  have h := claim_C3_amended_callback_at_most_once (.failure none)
  exact ⟨(h.2.2.2 (by decide)).1, (h.2.2.2 (by decide)).2, h.2.2.1⟩

/-- Helper: `resolveFingerprint` always leaves the returned fingerprint in
the in-memory cache. -/
theorem resolveFingerprint_caches (s : TelemetryGlobals) :
    (resolveFingerprint s).2.deviceFingerprint = some (resolveFingerprint s).1 := by
  obtain ⟨mem, store, supply⟩ := s
  cases mem with
  | some fp => rfl
  | none =>
    by_cases hs : strTruthy store = true
    · cases store with
      | none => simp [strTruthy] at hs
      | some e => simp [resolveFingerprint, hs]
    · simp [resolveFingerprint, hs]

/-- Helper: when the in-memory cache already holds a fingerprint, the
resolver returns it and changes nothing. -/
theorem resolveFingerprint_cached (s : TelemetryGlobals) (fp : String)
    (h : s.deviceFingerprint = some fp) : resolveFingerprint s = (fp, s) := by
  obtain ⟨mem, store, supply⟩ := s
  cases h
  rfl

/-- Claim C6 counterexample: starting from a fresh process with empty
storage, `resolveFingerprint` is called once, the backing storage slot is
then cleared, and the next call still returns the identical string — the
in-memory `DEVICE_FINGERPRINT` cache short-circuits the storage read — where
the claim requires a new distinct string. -/
theorem claim_C6_storage_clear_same_fingerprint_cex :
    (clearFingerprintStorage
        (resolveFingerprint ⟨none, none, 0⟩).2).localStorageFingerprint = none ∧
    (resolveFingerprint
        (clearFingerprintStorage (resolveFingerprint ⟨none, none, 0⟩).2)).1 =
      (resolveFingerprint ⟨none, none, 0⟩).1 := ⟨rfl, rfl⟩

/-- Claim C6 amended: within one process, two calls to `resolveFingerprint`
return the identical string whether or not the backing storage slot is
cleared in between (the in-memory cache short-circuits the storage read); a
new distinct string is generated only when the in-memory cache is also clear
— e.g. a fresh process whose storage slot was cleared. -/
theorem claim_C6_amended_fingerprint_caching (s : TelemetryGlobals) :
    (resolveFingerprint ((resolveFingerprint s).2)).1 = (resolveFingerprint s).1 ∧
    (resolveFingerprint (clearFingerprintStorage (resolveFingerprint s).2)).1 =
      (resolveFingerprint s).1 ∧
    (s.deviceFingerprint = none → s.localStorageFingerprint = none →
      (resolveFingerprint (freshProcessCleared (resolveFingerprint s).2)).1 ≠
        (resolveFingerprint s).1) := by
  refine ⟨?_, ?_, ?_⟩
  · rw [resolveFingerprint_cached _ _ (resolveFingerprint_caches s)]
  · have h : (clearFingerprintStorage (resolveFingerprint s).2).deviceFingerprint =
        some (resolveFingerprint s).1 := resolveFingerprint_caches s
    rw [resolveFingerprint_cached _ _ h]
  · intro hm hs
    obtain ⟨mem, store, supply⟩ := s
    cases hm
    cases hs
    show generateUUID (supply + 1) ≠ generateUUID supply
    intro h
    exact Nat.succ_ne_self supply (generateUUID_injective h)

/-- Claim C6 amended, witnessed at a fresh state with supply 5. -/
theorem claim_C6_amended_fingerprint_caching_witness :
    (resolveFingerprint
        (freshProcessCleared (resolveFingerprint ⟨none, none, 5⟩).2)).1 ≠
      (resolveFingerprint ⟨none, none, 5⟩).1 :=
  (claim_C6_amended_fingerprint_caching ⟨none, none, 5⟩).2.2 rfl rfl

/-- Claim C7 counterexample: with a present but malformed partner code "x"
(length 1) and location "yy", zipcheck and shop-info throw synchronously as
the claim states, but enroll's send does not log-and-return: its check only
tests falsiness, so it proceeds to issue the RPC, refuting the claim for
malformed configuration. -/
theorem claim_C7_enroll_sends_on_malformed_config_cex :
    configMissingOrMalformed (some "x") (some "yy") = true ∧
    zipcheckSync (some "x") (some "yy") "94105" = .threw zipcheckConfigMessage ∧
    shopInfoSync (some "x") (some "yy") = .threw shopInfoConfigMessage ∧
    enrollSendSync (some "x") (some "yy") = .issuedRpc "POST" "members" := by
  refine ⟨by decide, by decide, by decide, by decide⟩

/-- Claim C7 amended: when the partner or location code is missing (absent or
empty), shop-info and zipcheck raise synchronously before issuing any RPC and
enroll logs and returns without raising and without invoking the callback;
shop-info and zipcheck additionally raise when a code is present but
malformed (length at most 1), while enroll performs no well-formedness check
and issues its RPC whenever both codes are merely truthy. -/
theorem claim_C7_amended_config_validation (p l : Option String) :
    ((strTruthy p = false ∨ strTruthy l = false) →
      enrollSendSync p l = .loggedAndReturned) ∧
    ((strTruthy p = true ∧ strTruthy l = true) →
      enrollSendSync p l = .issuedRpc "POST" "members") ∧
    (configMissingOrMalformed p l = true →
      zipcheckSync p l "94105" = .threw zipcheckConfigMessage ∧
      shopInfoSync p l = .threw shopInfoConfigMessage) ∧
    (configMissingOrMalformed p l = false →
      zipcheckSync p l "94105" =
        .issuedRpc "GET"
          (String.intercalate "/"
            ["partners", p.getD "", "locations", l.getD "", "zipcheck", "94105"]) ∧
      shopInfoSync p l =
        .issuedRpc "GET"
          (String.intercalate "/"
            ["partners", p.getD "", "locations", l.getD "", "shop", "info"])) := by
  have hzip : zipcodeInvalid "94105" = false := by decide
  refine ⟨?_, ?_, ?_, ?_⟩
  · rintro (h | h) <;> simp [enrollSendSync, h]
  · rintro ⟨h1, h2⟩
    simp [enrollSendSync, h1, h2]
  · intro h
    exact ⟨by simp [zipcheckSync, hzip, h], by simp [shopInfoSync, h]⟩
  · intro h
    exact ⟨by simp [zipcheckSync, hzip, h], by simp [shopInfoSync, h]⟩

/-- Claim C7 amended, witnessed at a wholly missing configuration. -/
theorem claim_C7_amended_config_validation_witness :
    enrollSendSync none none = .loggedAndReturned ∧
    zipcheckSync none none "94105" = .threw zipcheckConfigMessage ∧
    shopInfoSync none none = .threw shopInfoConfigMessage := by
  have h := claim_C7_amended_config_validation none none
  exact ⟨h.1 (Or.inl rfl), (h.2.2.1 rfl).1, (h.2.2.1 rfl).2⟩

/-- Claim C8: the shop-info status-to-callback mapping. `PICKUP_ONLY` yields
(pickup, delivery) = (true, false); an absent `shopStatus` field (an
`undefined` read, hence the `|| OPEN` default) yields (true, true); `CLOSED`
yields (false, false); `DELIVERY_ONLY` yields (false, true); the third
callback argument is the null error code. -/
theorem claim_C8_shop_status_mapping (fields : List (String × JSPrim)) :
    (getProp (.vobj fields) "shopStatus" = .pstr "PICKUP_ONLY" →
      shopInfoDeliver (.success (.vobj fields)) = [(some true, some false, none)]) ∧
    (getProp (.vobj fields) "shopStatus" = .pundefined →
      shopInfoDeliver (.success (.vobj fields)) = [(some true, some true, none)]) ∧
    (getProp (.vobj fields) "shopStatus" = .pstr "CLOSED" →
      shopInfoDeliver (.success (.vobj fields)) = [(some false, some false, none)]) ∧
    (getProp (.vobj fields) "shopStatus" = .pstr "DELIVERY_ONLY" →
      shopInfoDeliver (.success (.vobj fields)) = [(some false, some true, none)]) := by
  refine ⟨fun h => ?_, fun h => ?_, fun h => ?_, fun h => ?_⟩ <;>
    (simp only [shopInfoDeliver]; rw [h]; decide)

/-- Claim C8, witnessed at a `PICKUP_ONLY` response. -/
theorem claim_C8_shop_status_mapping_witness :
    shopInfoDeliver (.success (.vobj [("shopStatus", .pstr "PICKUP_ONLY")])) =
      [(some true, some false, none)] :=
  (claim_C8_shop_status_mapping [("shopStatus", .pstr "PICKUP_ONLY")]).1 (by decide)

/-- Claim C9: the enroll response mapping. "Contains" a field is read as the
source reads it — the property is present with a truthy value (absent wire
fields read back as falsy defaults) — and the three cases apply in source
order: a truthy `error` wins, then both `id` and `foreignId` truthy yield a
customer carrying the `foreignId`, otherwise the callback receives
`(false, null, null)`. -/
theorem claim_C9_enroll_response_mapping (fields : List (String × JSPrim)) :
    (jsPrimTruthy (getProp (.vobj fields) "error") = true →
      enrollDeliver (.success (.vobj fields)) =
        [(false, some (getProp (.vobj fields) "error"), none)]) ∧
    (jsPrimTruthy (getProp (.vobj fields) "error") = false →
      jsPrimTruthy (getProp (.vobj fields) "id") = true →
      jsPrimTruthy (getProp (.vobj fields) "foreignId") = true →
      enrollDeliver (.success (.vobj fields)) =
        [(true, none, some { foreignId := getProp (.vobj fields) "foreignId" })]) ∧
    (jsPrimTruthy (getProp (.vobj fields) "error") = false →
      (jsPrimTruthy (getProp (.vobj fields) "id") &&
        jsPrimTruthy (getProp (.vobj fields) "foreignId")) = false →
      enrollDeliver (.success (.vobj fields)) = [(false, none, none)]) := by
  refine ⟨fun h => ?_, fun h1 h2 h3 => ?_, fun h1 h2 => ?_⟩
  · simp [enrollDeliver, h]
  · simp [enrollDeliver, h1, h2, h3]
  · simp [enrollDeliver, h1, h2]

/-- Claim C9, witnessed at a response carrying an error field. -/
theorem claim_C9_enroll_response_mapping_witness :
    enrollDeliver (.success (.vobj [("error", .pstr "ACCOUNT_EXISTS")])) =
      [(false, some (.pstr "ACCOUNT_EXISTS"), none)] :=
  (claim_C9_enroll_response_mapping [("error", .pstr "ACCOUNT_EXISTS")]).1 (by decide)

/-- Claim C10: `serializeGeneric` produces an envelope with exactly one typed
field set — `generic` for the EVENT tag, `error` for the EXCEPTION tag — plus
the context when supplied; for any of the seven other tags it raises a
`SerializationException` carrying the tag and payload when the throw flag is
defaulted or true, and returns the absent result (`null`) when the caller
passes `false`. -/
theorem claim_C10_serialize_generic_dispatch (t : EventTypeProperty)
    (value : JSVal) (optContext : Option AnalyticsContextMsg)
    (optErr : Option Bool) :
    (t = .EVENT →
      serializeGeneric t value optContext optErr =
        .ok (some { generic := some value, error := none, context := optContext })) ∧
    (t = .EXCEPTION →
      serializeGeneric t value optContext optErr =
        .ok (some { generic := none, error := some value, context := optContext })) ∧
    (t ≠ .EVENT → t ≠ .EXCEPTION →
      ((optErr = none ∨ optErr = some true) →
        serializeGeneric t value optContext optErr =
          .error { message := "Unable to serialize generic TelemetryEvent."
                   type := t, value := value }) ∧
      (optErr = some false →
        serializeGeneric t value optContext optErr = .ok none)) := by
  refine ⟨fun h => ?_, fun h => ?_, fun h1 h2 => ⟨fun h3 => ?_, fun h3 => ?_⟩⟩
  · subst h; rfl
  · subst h; rfl
  · rcases h3 with h3 | h3 <;> subst h3 <;> cases t <;>
      first
        | exact absurd rfl h1
        | exact absurd rfl h2
        | rfl
  · subst h3
    cases t <;>
      first
        | exact absurd rfl h1
        | exact absurd rfl h2
        | rfl

/-- Claim C10, witnessed at the unrecognized ORDER_ACTION tag in both the
defaulted-throw and the non-throwing modes. -/
theorem claim_C10_serialize_generic_dispatch_witness :
    serializeGeneric .ORDER_ACTION .vnull none none =
      .error { message := "Unable to serialize generic TelemetryEvent."
               type := .ORDER_ACTION, value := .vnull } ∧
    serializeGeneric .ORDER_ACTION .vnull none (some false) = .ok none := by
  have h := claim_C10_serialize_generic_dispatch .ORDER_ACTION .vnull none none
  have h2 := claim_C10_serialize_generic_dispatch .ORDER_ACTION .vnull none (some false)
  exact ⟨(h.2.2 (by decide) (by decide)).1 (Or.inl rfl),
    (h2.2.2 (by decide) (by decide)).2 rfl⟩

/-- Helper: whenever `serialize` returns an object, its non-scope keys are
exactly the present-field images of the record. -/
theorem serialize_fields (ctx : Context) (out : SerContext)
    (h : ctx.serialize = Except.ok out) :
    out.collection = ctx.collection.map (fun c => { name := c.name }) ∧
    out.fingerprint = (if strTruthy ctx.fingerprint then ctx.fingerprint else none) ∧
    out.group = (if strTruthy ctx.session then ctx.session else none) ∧
    out.user = ctx.user.map (fun u => { uid := u.uid }) ∧
    out.order = ctx.order.map (fun o => { id := o.id }) ∧
    out.browser = ctx.browser.map Context.serializeBrowserContext := by
  unfold Context.serialize at h
  rcases hloc : ctx.location with _ | lk
  · rw [hloc] at h
    simp only [Bind.bind, Except.bind, Pure.pure, Except.pure] at h
    injection h with h2
    subst h2
    exact ⟨rfl, rfl, rfl, rfl, rfl, rfl⟩
  · rw [hloc] at h
    rcases hdev : ctx.device with _ | dk
    · rw [hdev] at h
      simp [Bind.bind, Except.bind] at h
    · rw [hdev] at h
      simp only [Bind.bind, Except.bind, Pure.pure, Except.pure] at h
      injection h with h2
      subst h2
      exact ⟨rfl, rfl, rfl, rfl, rfl, rfl⟩

/-- Helper: with no location and no order, a successful `serialize` emits no
scope key. -/
theorem serialize_scope_none (ctx : Context) (out : SerContext)
    (h : ctx.serialize = Except.ok out)
    (hloc : ctx.location = none) (hord : ctx.order = none) :
    out.scope = none := by
  unfold Context.serialize at h
  rw [hloc, hord] at h
  simp only [Bind.bind, Except.bind, Pure.pure, Except.pure, strTruthy] at h
  injection h with h2
  subst h2
  rfl

/-- Claim C4: neither rendering emits a key for a field that was not supplied
at construction; keys are modelled as `Option` fields of the output records,
`none` meaning the key is absent entirely (never a null-valued key). The
plain-object statements are conditional on `serialize` returning an object
(see claim C5); the exported message never carries a scope at all. -/
theorem claim_C4_absent_fields_emit_no_keys (a : ContextArgs)
    (ctx : Context) (out : SerContext)
    (hmake : Context.make a = Except.ok ctx)
    (hser : ctx.serialize = Except.ok out) :
    (a.collection = none → out.collection = none ∧ ctx.export.collection = none) ∧
    (a.fingerprint = none → out.fingerprint = none ∧ ctx.export.fingerprint = none) ∧
    (a.session = none → out.group = none ∧ ctx.export.group = none) ∧
    (a.user = none → out.user = none ∧ ctx.export.user = none) ∧
    (a.order = none → out.order = none) ∧
    (a.partner = none ∧ a.location = none ∧ a.device = none ∧ a.order = none →
      out.scope = none) ∧
    ctx.export.scope = none ∧
    (a.browser = none → out.browser = none ∧ ctx.export.browser = none) := by
  have hctx : ctx = Context.build a := by
    have h := Context.make_eq a
    rw [hmake] at h
    injection h
  subst hctx
  obtain ⟨hcol, hfp, hgr, hus, hord2, hbr⟩ := serialize_fields _ _ hser
  refine ⟨?_, ?_, ?_, ?_, ?_, ?_, rfl, ?_⟩
  · intro h
    constructor
    · rw [hcol]; simp [Context.build, h]
    · simp [Context.export, Context.build, h]
  · intro h
    constructor
    · rw [hfp]; simp [Context.build, normStr, strTruthy, h]
    · simp [Context.export, Context.build, normStr, strTruthy, h]
  · intro h
    constructor
    · rw [hgr]; simp [Context.build, normStr, strTruthy, h]
    · simp [Context.export, Context.build, normStr, strTruthy, h]
  · intro h
    constructor
    · rw [hus]; simp [Context.build, strTruthy, h]
    · simp [Context.export, Context.build, strTruthy, h]
  · intro h
    rw [hord2]; simp [Context.build, strTruthy, h]
  · rintro ⟨h1, h2, h3, h4⟩
    refine serialize_scope_none _ _ hser ?_ ?_
    · simp [Context.build, strTruthy, h1, h2]
    · simp [Context.build, strTruthy, h4]
  · intro h
    constructor
    · rw [hbr]; simp [Context.build, h]
    · simp [Context.export, Context.build, h]

/-- Claim C4, witnessed at the empty construction (nothing supplied, both
renderings emit nothing). -/
theorem claim_C4_absent_fields_emit_no_keys_witness :
    (emptyArgs.collection = none →
      emptySer.collection = none ∧
      (Context.build emptyArgs).export.collection = none) ∧
    (emptyArgs.fingerprint = none →
      emptySer.fingerprint = none ∧
      (Context.build emptyArgs).export.fingerprint = none) ∧
    (emptyArgs.session = none →
      emptySer.group = none ∧
      (Context.build emptyArgs).export.group = none) ∧
    (emptyArgs.user = none →
      emptySer.user = none ∧
      (Context.build emptyArgs).export.user = none) ∧
    (emptyArgs.order = none → emptySer.order = none) ∧
    (emptyArgs.partner = none ∧ emptyArgs.location = none ∧
      emptyArgs.device = none ∧ emptyArgs.order = none →
      emptySer.scope = none) ∧
    (Context.build emptyArgs).export.scope = none ∧
    (emptyArgs.browser = none →
      emptySer.browser = none ∧
      (Context.build emptyArgs).export.browser = none) :=
  claim_C4_absent_fields_emit_no_keys emptyArgs (Context.build emptyArgs)
    emptySer (Context.make_eq emptyArgs) rfl
